import Mathlib

/-!
Shallow embedding of the SOOD chat server (`src/server.js`, `src/unnamed/part_001`).

The repository contains three near-identical copies of the same Express server:
* variant A: `src/server.js`, first copy (lines 1-337),
* variant B: `src/server.js`, second copy (lines 338-671),
* variant C: `src/unnamed/part_001`.

All state lives in the in-memory `chatHistory` map; every outbound call
(Groq chat completion, ElevenLabs speech synthesis) is modelled as an
explicit argument carrying the outcome of that call (`Except` for calls
whose failure the handler observes, `Option` for variant A's
`generateSpeech`, which swallows its own errors and returns `null`).
-/

/-- One conversation turn, as stored in the `chatHistory` map:
a role tag (`"system"`, `"user"` or `"assistant"`) and the text content. -/
structure ChatMessage where
  role : String
  content : String
deriving Repr, DecidableEq

/-- A session's stored history: the ordered list of turns. -/
abbrev History := List ChatMessage

/-- The in-memory `chatHistory` map, keyed by the client-supplied session id.
`none` means the key is absent from the map. -/
abbrev Store := String → Option History

/-- The empty `chatHistory` map (process start). -/
def Store.empty : Store := fun _ => none

/-- `chatHistory.set(sessionId, h)`. -/
def Store.set (st : Store) (sid : String) (h : History) : Store :=
  fun s => if s = sid then some h else st s

/-- `chatHistory.get(sessionId) || []`: the history of a session, with a
missing session read as the empty list (as every handler does). -/
def Store.read (st : Store) (sid : String) : History :=
  (st sid).getD []

/-- `chatHistory.delete(sessionId)` (the `/clear-history` handler). -/
def Store.remove (st : Store) (sid : String) : Store :=
  fun s => if s = sid then none else st s

theorem Store.read_set_self (st : Store) (sid : String) (h : History) :
    Store.read (Store.set st sid h) sid = h := by
  simp [Store.read, Store.set]

theorem Store.read_set_ne (st : Store) (sid sid2 : String) (h : History)
    (hne : sid2 ≠ sid) : Store.read (Store.set st sid h) sid2 = Store.read st sid2 := by
  simp [Store.read, Store.set, hne]

/-! ### Markdown cleanup

All variants clean replies with
`botResponse.replace(/\*\*/g, '').replace(/\*/g, '')`:
first every non-overlapping pair `**` is removed, then every remaining `*`. -/

/-- `replace(/\*\*/g, '')`: drop every (left-to-right, non-overlapping)
pair of consecutive `*` characters. -/
def stripPairs : List Char → List Char
  | [] => []
  | [c] => [c]
  | c1 :: c2 :: rest =>
      if c1 = '*' && c2 = '*' then stripPairs rest
      else c1 :: stripPairs (c2 :: rest)

/-- `replace(/\*/g, '')`: drop every remaining `*` character. -/
def stripSingles (l : List Char) : List Char :=
  l.filter (fun c => c != '*')

/-- The composite cleanup applied to every completion reply:
`s.replace(/\*\*/g, '').replace(/\*/g, '')`. -/
def cleanMarkdown (s : String) : String :=
  String.mk (stripSingles (stripPairs s.data))

/-! ### Word splitting and chunking (variant C's TTS path)

`botResponse.split(' ')`, then a loop that closes a chunk as soon as it
holds 50 words, then `chunks.push(currentChunk.join(' '))`. -/

/-- `String.prototype.split(' ')` (single-space separator): splits into the
maximal run-free segments; adjacent separators produce empty segments, and
an empty input produces `[""]`, exactly as in JavaScript. -/
def splitAux : List Char → List Char → List String
  | [], cur => [String.mk cur.reverse]
  | c :: rest, cur =>
      if c = ' ' then String.mk cur.reverse :: splitAux rest []
      else splitAux rest (c :: cur)

/-- `botResponse.split(' ')`. -/
def splitWords (s : String) : List String :=
  splitAux s.data []

/-- The chunking loop of variant C's `/chat`: push each word into
`currentChunk`; once the chunk holds at least 50 words, emit it and start a
new one; a trailing partial chunk is emitted at the end. -/
def chunkGo : List String → List String → List (List String)
  | [], cur => if cur.isEmpty then [] else [cur]
  | w :: rest, cur =>
      if 50 ≤ (cur ++ [w]).length then (cur ++ [w]) :: chunkGo rest []
      else chunkGo rest (cur ++ [w])

/-- The chunks (as word lists) variant C builds from the word list. -/
def buildChunks (ws : List String) : List (List String) :=
  chunkGo ws []

/-- `chunks.push(currentChunk.join(' '))`: the chunk texts submitted to
the speech-synthesis API, in order. -/
def chunkTexts (ws : List String) : List String :=
  (buildChunks ws).map (String.intercalate " ")

/-- Length mirror of `chunkGo`: the sizes of the produced chunks as a
function of the number of remaining words and the current chunk's size. -/
def chunkSizes : Nat → Nat → List Nat
  | 0, c => if c = 0 then [] else [c]
  | n + 1, c => if 50 ≤ c + 1 then (c + 1) :: chunkSizes n 0 else chunkSizes n (c + 1)

/-- The two-pass cleanup is extensionally the removal of every `*`. -/
theorem filter_stripPairs (l : List Char) :
    (stripPairs l).filter (fun c => c != '*') = l.filter (fun c => c != '*') := by
  induction l using stripPairs.induct with
  | case1 => rfl
  | case2 c => rfl
  | case3 c1 c2 rest h ih =>
      obtain ⟨h1, h2⟩ : c1 = '*' ∧ c2 = '*' := by
        constructor <;> [exact of_decide_eq_true (Bool.and_elim_left h);
          exact of_decide_eq_true (Bool.and_elim_right h)]
      rw [stripPairs, if_pos h, ih, List.filter_cons, List.filter_cons]
      simp [h1, h2]
  | case4 c1 c2 rest h ih =>
      rw [stripPairs, if_neg (by simpa using h), List.filter_cons, List.filter_cons, ih]

theorem cleanMarkdown_data (s : String) :
    (cleanMarkdown s).data = s.data.filter (fun c => c != '*') := by
  rw [cleanMarkdown]
  show stripSingles (stripPairs s.data) = _
  rw [stripSingles, filter_stripPairs]

theorem star_not_mem_cleanMarkdown (s : String) : '*' ∉ (cleanMarkdown s).data := by
  rw [cleanMarkdown_data]
  intro hmem
  have := List.of_mem_filter hmem
  simp at this

theorem cleanMarkdown_ne_nil (s : String) (c : Char) (hc : c ∈ s.data) (hne : c ≠ '*') :
    (cleanMarkdown s).data ≠ [] := by
  rw [cleanMarkdown_data]
  intro hnil
  rw [List.filter_eq_nil_iff] at hnil
  exact hne (by simpa using hnil c hc)

theorem cleanMarkdown_append (a b : String) :
    (cleanMarkdown (a ++ b)).data = (cleanMarkdown a).data ++ (cleanMarkdown b).data := by
  rw [cleanMarkdown_data, cleanMarkdown_data, cleanMarkdown_data]
  show (a.data ++ b.data).filter _ = _
  rw [List.filter_append]

/-- A list of characters untouched by the cleanup (it holds no `*`). -/
abbrev starFree (l : List Char) : Prop :=
  l.filter (fun c => c != '*') = l

theorem cleanMarkdown_of_starFree (s : String) (h : starFree s.data) :
    cleanMarkdown s = s := by
  have hdata : (cleanMarkdown s).data = s.data := by rw [cleanMarkdown_data]; exact h
  exact String.ext hdata

/-- `String.prototype.includes(pat)`. -/
def containsSub (s pat : String) : Bool :=
  decide (pat.data <:+: s.data)

/-! ### `slice(-n)`: the history cap -/

/-- `Array.prototype.slice(-n)` for `n > 0`: the last `n` elements
(all of them when the array is shorter). -/
def lastN (n : Nat) (l : List α) : List α :=
  (l.reverse.take n).reverse

theorem lastN_length_le (n : Nat) (l : List α) : (lastN n l).length ≤ n := by
  simp [lastN]

theorem lastN_of_length_le (n : Nat) (l : List α) (h : l.length ≤ n) :
    lastN n l = l := by
  rw [lastN, List.take_of_length_le (by simpa using h), List.reverse_reverse]

theorem lastN_append_lastN (n : Nat) (xs ys : List α) :
    lastN n (lastN n xs ++ ys) = lastN n (xs ++ ys) := by
  simp only [lastN, List.reverse_append, List.reverse_reverse]
  rw [List.take_append_eq_append_take, List.take_append_eq_append_take, List.take_take,
    Nat.min_eq_left (Nat.sub_le _ _)]

/-! ### Persona registries

`presetPrompts` from variant A (short prompts, `src/server.js` lines
121-150) and from variants B/C (long prompts, `src/server.js` lines
452-482 = `src/unnamed/part_001` lines 105-134). Apostrophes in the
source strings are written `\x27`. -/

/-- A persona: display name and system prompt. -/
structure RoleConfig where
  name : String
  system : String
deriving Repr, DecidableEq

def lawyerA : RoleConfig :=
  { name := "Saul Goodman",
    system := "You are Saul Goodman. Keep responses under 50 words. Be direct and witty. Use \x27Better Call Saul\x27 catchphrase occasionally. Focus on practical legal advice while maintaining your signature charm." }

def doctorA : RoleConfig :=
  { name := "Dr. Sarah Chen",
    system := "You are Dr. Sarah Chen. Keep responses under 50 words. Provide clear, concise medical information. Be professional yet compassionate. Focus on practical health guidance." }

def tutorA : RoleConfig :=
  { name := "Professor Alex Thompson",
    system := "You are Professor Alex Thompson. Keep responses under 50 words. Explain concepts clearly and simply. Use examples when needed. Focus on key learning points." }

def engineerA : RoleConfig :=
  { name := "Dr. Michael Zhang",
    system := "You are Dr. Michael Zhang. Keep responses under 50 words. Provide practical coding and technical advice. Use simple explanations for complex concepts." }

def financialA : RoleConfig :=
  { name := "Emma Richardson",
    system := "You are Emma Richardson. Keep responses under 50 words. Give clear financial advice. Focus on practical money management tips. Emphasize important financial concepts briefly." }

def writerA : RoleConfig :=
  { name := "Isabella Martinez",
    system := "You are Isabella Martinez. Keep responses under 50 words. Provide concise writing advice. Focus on key storytelling elements. Give practical tips for improvement." }

def taxA : RoleConfig :=
  { name := "William Turner",
    system := "You are William Turner. Keep responses under 50 words. Provide clear tax advice. Focus on compliance and optimization. Explain complex tax concepts simply." }

/-- Variant A's `presetPrompts` lookup (`presetPrompts[role]`, `undefined`
for unknown keys). -/
def presetPromptsA (k : String) : Option RoleConfig :=
  if k = "lawyer" then some lawyerA
  else if k = "doctor" then some doctorA
  else if k = "tutor" then some tutorA
  else if k = "engineer" then some engineerA
  else if k = "financial" then some financialA
  else if k = "writer" then some writerA
  else if k = "tax" then some taxA
  else none

def lawyerBC : RoleConfig :=
  { name := "Saul Goodman",
    system := "You are Saul Goodman, working for SOOD. You\x27re a charismatic and resourceful lawyer known for your creative legal solutions and catchy slogan \x27Better Call Saul\x27. You have a colorful personality and aren\x27t afraid to think outside the box. Never mention being an \x27AI assistant\x27 - just be Saul. Use your signature wit and charm while staying professional enough to handle serious legal matters. Always introduce yourself as Saul Goodman and occasionally use your catchphrase." }

def doctorBC : RoleConfig :=
  { name := "Dr. Sarah Chen",
    system := "You are Dr. Sarah Chen, working for SOOD. You are a board-certified physician with expertise in internal medicine and preventive healthcare. Never mention being an \x27AI assistant\x27 - just be Dr. Chen. Provide clear, accurate medical information while maintaining a compassionate and professional tone." }

def tutorBC : RoleConfig :=
  { name := "Professor Alex Thompson",
    system := "You are Professor Alex Thompson, working for SOOD. You are an experienced educator with expertise in multiple subjects including mathematics, sciences, and literature. Never mention being an \x27AI assistant\x27 - just be Professor Thompson. Explain concepts clearly and encourage active learning through questions and examples." }

def engineerBC : RoleConfig :=
  { name := "Dr. Michael Zhang",
    system := "You are Dr. Michael Zhang, working for SOOD. You are a senior software engineer with 15 years of experience in multiple programming languages and software architectures. Never mention being an \x27AI assistant\x27 - just be Dr. Zhang. Provide clear, practical coding advice and explain technical concepts in accessible terms." }

def financialBC : RoleConfig :=
  { name := "Emma Richardson",
    system := "You are Emma Richardson, working for SOOD. You are a certified financial advisor with expertise in personal finance, investments, and wealth management. Never mention being an \x27AI assistant\x27 - just be Emma Richardson. Provide clear financial guidance while emphasizing the importance of personal research." }

def writerBC : RoleConfig :=
  { name := "Isabella Martinez",
    system := "You are Isabella Martinez, working for SOOD. You are an accomplished author and creative writing expert with experience across various genres. Never mention being an \x27AI assistant\x27 - just be Isabella Martinez. Provide guidance on storytelling, character development, and writing techniques with an encouraging approach." }

def taxBC : RoleConfig :=
  { name := "William Turner",
    system := "You are William Turner, working for SOOD. You are a certified tax specialist with over 15 years of experience in tax planning, compliance, and advisory services. Never mention being an \x27AI assistant\x27 - just be William Turner. You specialize in helping clients navigate complex tax regulations, optimize their tax positions, and ensure full compliance with tax laws. Always emphasize the importance of proper documentation and staying within legal boundaries." }

/-- Variants B and C's `presetPrompts` lookup. -/
def presetPromptsBC (k : String) : Option RoleConfig :=
  if k = "lawyer" then some lawyerBC
  else if k = "doctor" then some doctorBC
  else if k = "tutor" then some tutorBC
  else if k = "engineer" then some engineerBC
  else if k = "financial" then some financialBC
  else if k = "writer" then some writerBC
  else if k = "tax" then some taxBC
  else none

/-- The inline fallback object of variants B and C's `/chat` (note the
upper-case `name`; its `system` text is letter-for-letter the registry
lawyer prompt). -/
def fallbackBC : RoleConfig :=
  { name := "SAUL GOODMAN",
    system := "You are Saul Goodman, working for SOOD. You\x27re a charismatic and resourceful lawyer known for your creative legal solutions and catchy slogan \x27Better Call Saul\x27. You have a colorful personality and aren\x27t afraid to think outside the box. Never mention being an \x27AI assistant\x27 - just be Saul. Use your signature wit and charm while staying professional enough to handle serious legal matters. Always introduce yourself as Saul Goodman and occasionally use your catchphrase." }

/-- Variant A's `/chat` role resolution:
`selectedRole && presetPrompts[selectedRole] ? presetPrompts[selectedRole] : presetPrompts['lawyer']`
(an absent or empty `selectedRole` is falsy). -/
def resolveRoleA (sel : Option String) : RoleConfig :=
  match sel with
  | none => lawyerA
  | some k => if k = "" then lawyerA else (presetPromptsA k).getD lawyerA

/-- Variants B and C's `/chat` role resolution (same shape, inline
fallback object). -/
def resolveRoleBC (sel : Option String) : RoleConfig :=
  match sel with
  | none => fallbackBC
  | some k => if k = "" then fallbackBC else (presetPromptsBC k).getD fallbackBC

/-! ### HTTP handler models

Each handler is a pure function of the store and of the outcomes of its
outbound calls. A `Groq` completion outcome is `Except String σ` where the
error carries `error.message` and `σ` is the reply content (`Option String`
in variants A/B, which read it as `completion.choices[0]?.message?.content`
with a `||` default; plain `String` in variant C, which reads it
unguarded). Speech synthesis plus base64 data-URL encoding is one opaque
collaborator: `String → Option String` for variant A (whose
`generateSpeech` swallows errors and returns `null`) and
`String → Except String String` for variants B/C (whose `generateSpeech`
throws). -/

/-- The JSON body of `POST /chat`. A missing `message` is modelled as `""`
(both are falsy for `if (!message)`); `voiceId` presence is a `Bool`
where only its truthiness matters. -/
structure ChatRequest where
  message : String
  sessionId : String
  selectedRole : Option String
  ttsEnabled : Bool
deriving Repr, DecidableEq

/-- The response of `POST /chat` (union of the fields the three variants
use; a variant leaves the fields it does not produce at `none` / `[]`). -/
structure ChatResponse where
  status : Nat
  text : Option String
  audioUrl : Option String
  audioChunks : List String
  errorMsg : Option String
  retryAfter : Option Nat
  details : Option String
deriving Repr, DecidableEq

/-- The all-empty 200 response, for building concrete responses. -/
def ChatResponse.base : ChatResponse :=
  { status := 200, text := none, audioUrl := none, audioChunks := [],
    errorMsg := none, retryAfter := none, details := none }

/-- Variant A's default when `completion.choices[0]?.message?.content` is
missing. -/
def defaultReplyA : String := "Sorry, I couldn\x27t generate a response."

/-- Variant B's default reply. -/
def defaultReplyB : String := "I apologize, but I couldn\x27t generate a response at the moment."

/-- The texts variant A submits to `generateSpeech` in one `/chat` call:
a single call on the whole reply when `ttsEnabled && voiceId`, none
otherwise (`src/server.js` lines 263-270). -/
def ttsCallsA (ttsEnabled voiceIdPresent : Bool) (reply : String) : List String :=
  if ttsEnabled && voiceIdPresent then [reply] else []

/-- The texts variant C submits to `generateSpeech` in one `/chat` call:
the 50-word chunks of the cleaned reply when `ttsEnabled`
(`src/unnamed/part_001` lines 263-284). -/
def ttsCallsC (ttsEnabled : Bool) (botResponse : String) : List String :=
  if ttsEnabled then chunkTexts (splitWords botResponse) else []

/-- Variant A's `/chat` (`src/server.js` lines 225-292). The prompt it
sends (`system + history.slice(-4) + user`) does not feed back into the
stored state, so the completion outcome is a direct argument. -/
def chatA (st : Store) (req : ChatRequest) (voiceIdPresent : Bool)
    (outcome : Except String (Option String)) (speech : String → Option String)
    (nodeEnv : String) : ChatResponse × Store :=
  if req.message = "" then
    ({ ChatResponse.base with status := 400, errorMsg := some "Message is required" }, st)
  else
    let history := Store.read st req.sessionId
    match outcome with
    | Except.error e =>
        if containsSub e "rate limit exceeded" then
          ({ ChatResponse.base with
             status := 429
             errorMsg := some "Rate limit reached. Please try again in a few minutes."
             retryAfter := some 60 }, st)
        else
          ({ ChatResponse.base with
             status := 500
             errorMsg := some "Service temporarily unavailable. Please try again."
             details := if nodeEnv = "development" then some e else none }, st)
    | Except.ok content =>
        let reply := content.getD defaultReplyA
        let st2 := Store.set st req.sessionId
          (lastN 6 (history ++ [⟨"user", req.message⟩, ⟨"assistant", reply⟩]))
        let audioUrl := if req.ttsEnabled && voiceIdPresent then speech reply else none
        ({ ChatResponse.base with
           status := 200
           text := some reply
           audioUrl := audioUrl }, st2)

/-- Variant B's `/chat` (`src/server.js` lines 553-626). Note the history
update `chatHistory.set(sessionId, history)` after two pushes has no
`slice`: the stored history is unbounded. -/
def chatB (st : Store) (req : ChatRequest)
    (outcome : Except String (Option String)) (speech : String → Except String String)
    (nodeEnv : String) : ChatResponse × Store :=
  if req.message = "" then
    ({ ChatResponse.base with status := 400, errorMsg := some "Message is required" }, st)
  else
    let history := Store.read st req.sessionId
    match outcome with
    | Except.error e =>
        if containsSub e "rate limit exceeded" then
          ({ ChatResponse.base with
             status := 429
             errorMsg := some "I\x27m currently experiencing high demand. Please try again in a few minutes. This helps ensure everyone can access the service fairly."
             retryAfter := some 60 }, st)
        else
          ({ ChatResponse.base with
             status := 500
             errorMsg := some "I\x27m having trouble processing your request right now. Please try again in a moment."
             details := if nodeEnv = "development" then some e else none }, st)
    | Except.ok content =>
        let reply := content.getD defaultReplyB
        let st2 := Store.set st req.sessionId
          (history ++ [⟨"user", req.message⟩, ⟨"assistant", reply⟩])
        let audioUrl := if req.ttsEnabled then (speech reply).toOption else none
        ({ ChatResponse.base with
           status := 200
           text := some reply
           audioUrl := audioUrl }, st2)

/-- The fixed self-introduction template of variant C's first-turn
special case: `Hello! I'm ${name}. `. -/
def introTemplate (name : String) : String :=
  "Hello! I\x27m " ++ name ++ ". "

/-- Variant C's reply post-processing (`src/unnamed/part_001` lines
243-251): on a first turn whose raw reply does not `includes` the persona
name, prepend the introduction template; then strip markdown emphasis. -/
def botResponseC (history : History) (roleConfig : RoleConfig) (raw : String) : String :=
  let withIntro :=
    if history.isEmpty && !(containsSub raw roleConfig.name) then
      introTemplate roleConfig.name ++ raw
    else raw
  cleanMarkdown withIntro

/-- Variant C's `/chat` (`src/unnamed/part_001` lines 205-306). Any
completion failure reaches only the outer `catch` (there is no rate-limit
branch in this variant). -/
def chatC (st : Store) (req : ChatRequest)
    (outcome : Except String String)
    (speech : String → Except String String) : ChatResponse × Store :=
  if req.message = "" then
    ({ ChatResponse.base with status := 400, errorMsg := some "Message is required" }, st)
  else
    let history := Store.read st req.sessionId
    let roleConfig := resolveRoleBC req.selectedRole
    match outcome with
    | Except.error _ =>
        ({ ChatResponse.base with
           status := 500
           errorMsg := some "An error occurred while processing your request" }, st)
    | Except.ok raw =>
        let botResponse := botResponseC history roleConfig raw
        let st2 := Store.set st req.sessionId
          (lastN 10 (history ++ [⟨"user", req.message⟩, ⟨"assistant", botResponse⟩]))
        let audioChunks :=
          if req.ttsEnabled then
            match (chunkTexts (splitWords botResponse)).mapM speech with
            | Except.ok audios => audios
            | Except.error _ => []
          else []
        ({ ChatResponse.base with
           status := 200
           text := some botResponse
           audioChunks := audioChunks }, st2)

/-- The response of `POST /init`. -/
structure InitResponse where
  status : Nat
  message : Option String
  audioChunks : List String
  errorMsg : Option String
deriving Repr, DecidableEq

/-- The fixed greeting-request user turn of `/init`. -/
def seedGreetingRequest : String := "Hello, could you introduce yourself?"

/-- `POST /init`, identical in all three variants up to the registry
(`reg`) and the audio field shape (`src/server.js` lines 153-222 and
485-550, `src/unnamed/part_001` lines 137-202): validate the role, clear
the session's history, call the completion API on the seed exchange,
clean the reply, store the three-turn seed, and attach audio when
synthesis succeeds (synthesis failure is swallowed). -/
def initStep (reg : String → Option RoleConfig) (st : Store) (role sid : String)
    (outcome : Except String String)
    (speech : String → Except String String) : InitResponse × Store :=
  if role = "" then
    ({ status := 400, message := none, audioChunks := [],
       errorMsg := some "Invalid role specified" }, st)
  else
    match reg role with
    | none =>
        ({ status := 400, message := none, audioChunks := [],
           errorMsg := some "Invalid role specified" }, st)
    | some roleConfig =>
        let st1 := Store.set st sid []
        match outcome with
        | Except.error _ =>
            ({ status := 500, message := none, audioChunks := [],
               errorMsg := some "An error occurred while initializing the chat" }, st1)
        | Except.ok content =>
            let botResponse := cleanMarkdown content
            let st2 := Store.set st1 sid
              [⟨"system", roleConfig.system⟩,
               ⟨"user", seedGreetingRequest⟩,
               ⟨"assistant", botResponse⟩]
            let audioChunks :=
              match speech botResponse with
              | Except.ok a => [a]
              | Except.error _ => []
            ({ status := 200, message := some botResponse,
               audioChunks := audioChunks, errorMsg := none }, st2)

/-- `POST /voice-settings` (identical in all variants): pure validation of
`stability` and `similarity_boost` against the closed range [0, 1]; the
store is returned untouched. JavaScript numbers are modelled as rationals. -/
def voiceSettingsStep (st : Store) (stability similarity : ℚ) : (Nat × Option String) × Store :=
  if stability < 0 ∨ stability > 1 ∨ similarity < 0 ∨ similarity > 1 then
    ((400, some "Values must be between 0 and 1"), st)
  else
    ((200, some "Settings updated"), st)

/-- `POST /clear-history` (identical in all variants). -/
def clearHistoryStep (st : Store) (sid : String) : (Nat × Option String) × Store :=
  if sid = "" then ((200, some "History cleared"), st)
  else ((200, some "History cleared"), Store.remove st sid)

/-! ### Chunking lemmas -/

theorem chunkGo_map_length (ws : List String) :
    ∀ cur, (chunkGo ws cur).map List.length = chunkSizes ws.length cur.length := by
  induction ws with
  | nil =>
      intro cur
      cases cur <;> simp [chunkGo, chunkSizes]
  | cons w rest ih =>
      intro cur
      rw [chunkGo]
      by_cases h : 50 ≤ (cur ++ [w]).length
      · rw [if_pos h, List.map_cons, ih []]
        have hlen : (cur ++ [w]).length = cur.length + 1 := by simp
        rw [hlen] at h ⊢
        rw [List.length_cons, chunkSizes, if_pos h]
        rfl
      · rw [if_neg h, ih (cur ++ [w])]
        have hlen : (cur ++ [w]).length = cur.length + 1 := by simp
        rw [hlen] at h ⊢
        rw [List.length_cons, chunkSizes, if_neg h]

theorem chunkGo_flatten (ws : List String) :
    ∀ cur, (chunkGo ws cur).flatten = cur ++ ws := by
  induction ws with
  | nil =>
      intro cur
      cases cur <;> simp [chunkGo]
  | cons w rest ih =>
      intro cur
      rw [chunkGo]
      by_cases h : 50 ≤ (cur ++ [w]).length
      · rw [if_pos h]
        simp [ih []]
      · rw [if_neg h, ih (cur ++ [w])]
        simp

/-- A reply of exactly 120 words is chunked as 50 + 50 + 20. -/
theorem buildChunks_120 (ws : List String) (h : ws.length = 120) :
    (buildChunks ws).map List.length = [50, 50, 20] := by
  rw [buildChunks, chunkGo_map_length, h]
  decide

theorem chunkTexts_120_length (ws : List String) (h : ws.length = 120) :
    (chunkTexts ws).length = 3 := by
  have hm := buildChunks_120 ws h
  have : (buildChunks ws).length = 3 := by
    have := congrArg List.length hm
    simpa using this
  simp [chunkTexts, this]

/-- `Promise.all` over calls that all succeed returns the results in the
original order. -/
theorem mapM_ok {ε : Type} (g : String → String) (l : List String) :
    (l.mapM (fun c => (Except.ok (g c) : Except ε String))) = Except.ok (l.map g) := by
  induction l with
  | nil => rfl
  | cons c rest ih =>
      rw [List.mapM_cons, ih]
      rfl

/-! ### Sequences of `/chat` calls -/

/-- One `/chat` request against variant A, together with the outcomes of
its outbound calls. -/
structure CallA where
  req : ChatRequest
  voiceIdPresent : Bool
  outcome : Except String (Option String)
  speech : String → Option String
  nodeEnv : String

/-- One `/chat` request against variant C, together with the outcomes of
its outbound calls. -/
structure CallC where
  req : ChatRequest
  outcome : Except String String
  speech : String → Except String String

/-- A sequence of `/chat` calls processed by variant A. -/
def runA (calls : List CallA) (st : Store) : Store :=
  calls.foldl (fun s c => (chatA s c.req c.voiceIdPresent c.outcome c.speech c.nodeEnv).2) st

/-- A sequence of `/chat` calls processed by variant C. -/
def runC (calls : List CallC) (st : Store) : Store :=
  calls.foldl (fun s c => (chatC s c.req c.outcome c.speech).2) st

/-- Any step that either leaves the store alone or overwrites one session
with the last `N` entries of its old history plus new turns keeps every
session's history at the last `N` entries of its chronological turn list. -/
theorem foldl_lastN_inv {σ : Type} (step : Store → σ → Store) (N : Nat)
    (hstep : ∀ st c, step st c = st ∨
      ∃ sid2 pair, step st c = Store.set st sid2 (lastN N (Store.read st sid2 ++ pair))) :
    ∀ (calls : List σ) (st : Store) (sid : String), (Store.read st sid).length ≤ N →
      ∃ app, Store.read (calls.foldl step st) sid = lastN N (Store.read st sid ++ app) := by
  intro calls
  induction calls with
  | nil =>
      intro st sid h
      exact ⟨[], by rw [List.foldl_nil, List.append_nil, lastN_of_length_le _ _ h]⟩
  | cons c rest ih =>
      intro st sid h
      rw [List.foldl_cons]
      rcases hstep st c with hc | ⟨sid2, pair, hc⟩
      · rw [hc]; exact ih st sid h
      · by_cases hs : sid = sid2
        · subst hs
          have hread : Store.read (step st c) sid = lastN N (Store.read st sid ++ pair) := by
            rw [hc, Store.read_set_self]
          have hlen : (Store.read (step st c) sid).length ≤ N := by
            rw [hread]; exact lastN_length_le _ _
          rcases ih (step st c) sid hlen with ⟨app1, happ⟩
          refine ⟨pair ++ app1, ?_⟩
          rw [happ, hread, lastN_append_lastN, List.append_assoc]
        · have hread : Store.read (step st c) sid = Store.read st sid := by
            rw [hc, Store.read_set_ne _ _ _ _ hs]
          rcases ih (step st c) sid (by rw [hread]; exact h) with ⟨app1, happ⟩
          exact ⟨app1, by rw [happ, hread]⟩

/-- Variant A's `/chat` either leaves the store alone (missing message,
completion failure) or overwrites the session with
`slice(-6)` of its history plus the new user and assistant turns. -/
theorem chatA_store_spec (st : Store) (req : ChatRequest) (vp : Bool)
    (outcome : Except String (Option String)) (speech : String → Option String)
    (venv : String) :
    (chatA st req vp outcome speech venv).2 = st ∨
    ∃ sid2 pair, (chatA st req vp outcome speech venv).2 =
      Store.set st sid2 (lastN 6 (Store.read st sid2 ++ pair)) := by
  rw [chatA]
  by_cases hm : req.message = ""
  · rw [if_pos hm]; left; rfl
  · rw [if_neg hm]
    cases outcome with
    | error e =>
        left
        by_cases hr : containsSub e "rate limit exceeded"
        · simp only [hr, if_true]
        · simp only [hr, Bool.false_eq_true, if_false]
    | ok content =>
        right
        exact ⟨req.sessionId,
          [⟨"user", req.message⟩, ⟨"assistant", content.getD defaultReplyA⟩], rfl⟩

/-- Variant C's `/chat` either leaves the store alone or overwrites the
session with `slice(-10)` of its history plus the new turns. -/
theorem chatC_store_spec (st : Store) (req : ChatRequest)
    (outcome : Except String String) (speech : String → Except String String) :
    (chatC st req outcome speech).2 = st ∨
    ∃ sid2 pair, (chatC st req outcome speech).2 =
      Store.set st sid2 (lastN 10 (Store.read st sid2 ++ pair)) := by
  rw [chatC]
  by_cases hm : req.message = ""
  · rw [if_pos hm]; left; rfl
  · rw [if_neg hm]
    cases outcome with
    | error e => left; rfl
    | ok raw =>
        right
        exact ⟨req.sessionId,
          [⟨"user", req.message⟩,
           ⟨"assistant", botResponseC (Store.read st req.sessionId)
             (resolveRoleBC req.selectedRole) raw⟩], rfl⟩

/-! ## Claim theorems -/

/-- C1 (amended): in the two `/chat` variants that truncate — variant A
(`history.slice(-6)`, cap 6) and variant C (`.slice(-10)`, cap 10) — for
every sequence of `/chat` calls and every session whose history starts
within the cap, the stored history length never exceeds the cap, and the
stored history is exactly the most recent entries of the session's
chronological turn list (initial history plus appended turn pairs) in
original order, oldest discarded first. (Variant B, the second `server.js`
copy, stores the pushed history with no `slice` at all; see the
counterexample.) -/
theorem c1_history_cap :
    (∀ (calls : List CallA) (st : Store) (sid : String),
       (Store.read st sid).length ≤ 6 →
       ∃ app, Store.read (runA calls st) sid = lastN 6 (Store.read st sid ++ app) ∧
         (Store.read (runA calls st) sid).length ≤ 6) ∧
    (∀ (calls : List CallC) (st : Store) (sid : String),
       (Store.read st sid).length ≤ 10 →
       ∃ app, Store.read (runC calls st) sid = lastN 10 (Store.read st sid ++ app) ∧
         (Store.read (runC calls st) sid).length ≤ 10) := by
  constructor
  · intro calls st sid h
    rcases foldl_lastN_inv _ 6
      (fun st2 c => chatA_store_spec st2 c.req c.voiceIdPresent c.outcome c.speech c.nodeEnv)
      calls st sid h with ⟨app, happ⟩
    exact ⟨app, by rw [runA]; exact happ, by rw [runA, happ]; exact lastN_length_le _ _⟩
  · intro calls st sid h
    rcases foldl_lastN_inv _ 10
      (fun st2 c => chatC_store_spec st2 c.req c.outcome c.speech)
      calls st sid h with ⟨app, happ⟩
    exact ⟨app, by rw [runC]; exact happ, by rw [runC, happ]; exact lastN_length_le _ _⟩

/-- A concrete variant-A `/chat` call for the C1 witness. -/
def c1CallA : CallA :=
  { req := { message := "hi", sessionId := "s1", selectedRole := none, ttsEnabled := false }
    voiceIdPresent := false
    outcome := Except.ok (some "hello")
    speech := fun _ => none
    nodeEnv := "production" }

/-- A concrete variant-C `/chat` call for the C1 witness. -/
def c1CallC : CallC :=
  { req := { message := "hi", sessionId := "s1", selectedRole := none, ttsEnabled := false }
    outcome := Except.ok "hello"
    speech := fun _ => Except.error "no voice" }

/-- C1 witness: the cap invariant instantiated at one concrete call on an
empty store, for each truncating variant. -/
theorem c1_history_cap_witness :
    (∃ app, Store.read (runA [c1CallA] Store.empty) "s1" =
        lastN 6 (Store.read Store.empty "s1" ++ app) ∧
      (Store.read (runA [c1CallA] Store.empty) "s1").length ≤ 6) ∧
    (∃ app, Store.read (runC [c1CallC] Store.empty) "s1" =
        lastN 10 (Store.read Store.empty "s1" ++ app) ∧
      (Store.read (runC [c1CallC] Store.empty) "s1").length ≤ 10) :=
  ⟨c1_history_cap.1 [c1CallA] Store.empty "s1" (by decide),
   c1_history_cap.2 [c1CallC] Store.empty "s1" (by decide)⟩

/-- One successful variant-B `/chat` call (fixed inputs), for the C1
counterexample. -/
def c1StepB (st : Store) : Store :=
  (chatB st { message := "hi", sessionId := "s1", selectedRole := none, ttsEnabled := false }
    (Except.ok (some "ok")) (fun _ => Except.error "no voice") "production").2

/-- C1 counterexample: variant B's `/chat` (`src/server.js` lines 588-591,
cited by the claim) stores the history with no truncation, so after six
successful calls on one session the stored history has 12 entries,
exceeding both observed caps (6 and 10). -/
theorem c1_counterexample :
    (Store.read (c1StepB (c1StepB (c1StepB (c1StepB (c1StepB (c1StepB Store.empty)))))) "s1").length
      = 12 ∧ 10 < 12 := by
  constructor
  · decide
  · decide

/-- C2 (amended): for every registry, every role key that resolves, and
every session, a successful `/init` stores exactly the three-turn seed
(system prompt, fixed greeting-request user turn, cleaned assistant
reply), returns that cleaned reply as the greeting, and the greeting
contains no `*`; the greeting is non-empty provided the raw completion
reply contains at least one character other than `*` (the code strips all
`*`, so an all-asterisk raw reply yields an empty greeting — see the
counterexample). -/
theorem c2_init_history (reg : String → Option RoleConfig) (st : Store)
    (role sid : String) (cfg : RoleConfig) (raw : String)
    (speech : String → Except String String)
    (hreg : reg role = some cfg) (hrole : role ≠ "") :
    (initStep reg st role sid (Except.ok raw) speech).1.status = 200 ∧
    (initStep reg st role sid (Except.ok raw) speech).2 sid =
      some [⟨"system", cfg.system⟩, ⟨"user", seedGreetingRequest⟩,
        ⟨"assistant", cleanMarkdown raw⟩] ∧
    (Store.read (initStep reg st role sid (Except.ok raw) speech).2 sid).length = 3 ∧
    (initStep reg st role sid (Except.ok raw) speech).1.message = some (cleanMarkdown raw) ∧
    '*' ∉ (cleanMarkdown raw).data ∧
    ((∃ c ∈ raw.data, c ≠ '*') → (cleanMarkdown raw).data ≠ []) := by
  have hstep : initStep reg st role sid (Except.ok raw) speech =
      ({ status := 200, message := some (cleanMarkdown raw),
         audioChunks := match speech (cleanMarkdown raw) with
           | Except.ok a => [a]
           | Except.error _ => [],
         errorMsg := none },
       Store.set (Store.set st sid []) sid
         [⟨"system", cfg.system⟩, ⟨"user", seedGreetingRequest⟩,
          ⟨"assistant", cleanMarkdown raw⟩]) := by
    rw [initStep, if_neg hrole, hreg]
  rw [hstep]
  refine ⟨rfl, ?_, ?_, rfl, star_not_mem_cleanMarkdown raw, ?_⟩
  · simp [Store.set]
  · simp [Store.read, Store.set]
  · rintro ⟨c, hc, hne⟩
    exact cleanMarkdown_ne_nil raw c hc hne

set_option maxRecDepth 8192 in
/-- C2 witness: the theorem instantiated at the `doctor` role of the
B/C registry, a session that already had history, and a concrete raw
reply. -/
theorem c2_init_history_witness :
    (initStep presetPromptsBC (Store.set Store.empty "s1" [⟨"user", "old"⟩]) "doctor" "s1"
        (Except.ok "I am Dr. Sarah Chen.") (fun _ => Except.error "no voice")).1.status = 200 ∧
    (initStep presetPromptsBC (Store.set Store.empty "s1" [⟨"user", "old"⟩]) "doctor" "s1"
        (Except.ok "I am Dr. Sarah Chen.") (fun _ => Except.error "no voice")).2 "s1" =
      some [⟨"system", doctorBC.system⟩, ⟨"user", seedGreetingRequest⟩,
        ⟨"assistant", cleanMarkdown "I am Dr. Sarah Chen."⟩] ∧
    (Store.read (initStep presetPromptsBC (Store.set Store.empty "s1" [⟨"user", "old"⟩]) "doctor" "s1"
        (Except.ok "I am Dr. Sarah Chen.") (fun _ => Except.error "no voice")).2 "s1").length = 3 ∧
    (initStep presetPromptsBC (Store.set Store.empty "s1" [⟨"user", "old"⟩]) "doctor" "s1"
        (Except.ok "I am Dr. Sarah Chen.") (fun _ => Except.error "no voice")).1.message =
      some (cleanMarkdown "I am Dr. Sarah Chen.") ∧
    '*' ∉ (cleanMarkdown "I am Dr. Sarah Chen.").data ∧
    ((∃ c ∈ "I am Dr. Sarah Chen.".data, c ≠ '*') →
      (cleanMarkdown "I am Dr. Sarah Chen.").data ≠ []) :=
  c2_init_history presetPromptsBC (Store.set Store.empty "s1" [⟨"user", "old"⟩])
    "doctor" "s1" doctorBC "I am Dr. Sarah Chen." (fun _ => Except.error "no voice")
    (by decide) (by decide)

set_option maxRecDepth 8192 in
/-- C2 counterexample: a successful `/init` whose raw completion reply is
`"*"` returns the empty greeting — the claim's "non-empty" part does not
hold for every successful call. -/
theorem c2_counterexample :
    (initStep presetPromptsBC Store.empty "doctor" "s1" (Except.ok "*")
        (fun _ => Except.error "no voice")).1.status = 200 ∧
    (initStep presetPromptsBC Store.empty "doctor" "s1" (Except.ok "*")
        (fun _ => Except.error "no voice")).1.message = some "" := by
  constructor
  · decide
  · decide

/-- C8: `/voice-settings` (identical in all variants) answers 400
"out of range" iff `stability < 0` or `stability > 1` or
`similarity_boost < 0` or `similarity_boost > 1`; otherwise it answers
the 200 acknowledgment; the boundary values 0 and 1 are accepted; and in
every case the history store is returned untouched (nothing is
persisted). -/
theorem c8_voice_settings :
    ∀ (st : Store) (stability similarity : ℚ),
      ((voiceSettingsStep st stability similarity).1.1 = 400 ↔
        (stability < 0 ∨ stability > 1 ∨ similarity < 0 ∨ similarity > 1)) ∧
      ((voiceSettingsStep st stability similarity).1.1 = 400 ∨
        (voiceSettingsStep st stability similarity).1 = (200, some "Settings updated")) ∧
      (voiceSettingsStep st stability similarity).2 = st ∧
      (voiceSettingsStep st 0 0).1.1 = 200 ∧
      (voiceSettingsStep st 1 1).1.1 = 200 ∧
      (voiceSettingsStep st 0 1).1.1 = 200 ∧
      (voiceSettingsStep st 1 0).1.1 = 200 := by
  intro st stability similarity
  have hb0 : (voiceSettingsStep st 0 0).1.1 = 200 := by norm_num [voiceSettingsStep]
  have hb1 : (voiceSettingsStep st 1 1).1.1 = 200 := by norm_num [voiceSettingsStep]
  have hb2 : (voiceSettingsStep st 0 1).1.1 = 200 := by norm_num [voiceSettingsStep]
  have hb3 : (voiceSettingsStep st 1 0).1.1 = 200 := by norm_num [voiceSettingsStep]
  rw [voiceSettingsStep]
  by_cases h : stability < 0 ∨ stability > 1 ∨ similarity < 0 ∨ similarity > 1
  · rw [if_pos h]
    exact ⟨by simpa using h, Or.inl rfl, rfl, hb0, hb1, hb2, hb3⟩
  · rw [if_neg h]
    refine ⟨?_, Or.inr rfl, rfl, hb0, hb1, hb2, hb3⟩
    constructor
    · intro habs; exact absurd habs (by norm_num)
    · intro hcond; exact absurd hcond h

/-- C9: when `/init` is called with a role that resolves and the
completion call then fails, the handler answers 500, but the session's
history has already been overwritten with the empty list
(`chatHistory.set(sessionId, [])` runs before the completion call):
`/init` is not atomic on error. -/
theorem c9_init_not_atomic (reg : String → Option RoleConfig) (st : Store)
    (role sid : String) (cfg : RoleConfig) (e : String)
    (speech : String → Except String String)
    (hreg : reg role = some cfg) (hrole : role ≠ "") :
    (initStep reg st role sid (Except.error e) speech).1.status = 500 ∧
    (initStep reg st role sid (Except.error e) speech).2 sid = some [] := by
  have hstep : initStep reg st role sid (Except.error e) speech =
      ({ status := 500, message := none, audioChunks := [],
         errorMsg := some "An error occurred while initializing the chat" },
       Store.set st sid []) := by
    rw [initStep, if_neg hrole, hreg]
  rw [hstep]
  exact ⟨rfl, by simp [Store.set]⟩

set_option maxRecDepth 8192 in
/-- C9 witness: a session that held prior history is left with the empty
history after a failed `/init` with the `doctor` role. -/
theorem c9_init_not_atomic_witness :
    (initStep presetPromptsBC (Store.set Store.empty "s1" [⟨"user", "old"⟩]) "doctor" "s1"
        (Except.error "Groq is down") (fun _ => Except.error "no voice")).1.status = 500 ∧
    (initStep presetPromptsBC (Store.set Store.empty "s1" [⟨"user", "old"⟩]) "doctor" "s1"
        (Except.error "Groq is down") (fun _ => Except.error "no voice")).2 "s1" = some [] :=
  c9_init_not_atomic presetPromptsBC (Store.set Store.empty "s1" [⟨"user", "old"⟩])
    "doctor" "s1" doctorBC "Groq is down" (fun _ => Except.error "no voice")
    (by decide) (by decide)

/-- C10: in all three `/chat` variants, a completion failure leaves the
store exactly as it was (the user and assistant turns are pushed only
after the completion call returned), and — shown for variant C — a
successful completion appends exactly the new user and assistant turns
(then truncates). -/
theorem c10_history_on_failure :
    ∀ (st : Store) (req : ChatRequest) (vp : Bool) (e : String)
      (spA : String → Option String) (spB spC : String → Except String String)
      (venv : String),
      (chatA st req vp (Except.error e) spA venv).2 = st ∧
      (chatB st req (Except.error e) spB venv).2 = st ∧
      (chatC st req (Except.error e) spC).2 = st ∧
      (req.message ≠ "" → ∀ raw : String,
        (chatC st req (Except.ok raw) spC).2 =
          Store.set st req.sessionId (lastN 10 (Store.read st req.sessionId ++
            [⟨"user", req.message⟩,
             ⟨"assistant", botResponseC (Store.read st req.sessionId)
               (resolveRoleBC req.selectedRole) raw⟩]))) := by
  intro st req vp e spA spB spC venv
  refine ⟨?_, ?_, ?_, ?_⟩
  · rw [chatA]
    by_cases hm : req.message = ""
    · rw [if_pos hm]
    · rw [if_neg hm]
      by_cases hr : containsSub e "rate limit exceeded"
      · simp only [hr, if_true]
      · simp only [hr, Bool.false_eq_true, if_false]
  · rw [chatB]
    by_cases hm : req.message = ""
    · rw [if_pos hm]
    · rw [if_neg hm]
      by_cases hr : containsSub e "rate limit exceeded"
      · simp only [hr, if_true]
      · simp only [hr, Bool.false_eq_true, if_false]
  · rw [chatC]
    by_cases hm : req.message = ""
    · rw [if_pos hm]
    · rw [if_neg hm]
  · intro hm raw
    rw [chatC, if_neg hm]

/-- C10 witness: variant C at a concrete failed and a concrete successful
call on a store that already held one turn. -/
theorem c10_history_on_failure_witness :
    (chatA (Store.set Store.empty "s1" [⟨"user", "old"⟩])
        { message := "hi", sessionId := "s1", selectedRole := none, ttsEnabled := false }
        false (Except.error "boom") (fun _ => none) "production").2 =
      Store.set Store.empty "s1" [⟨"user", "old"⟩] ∧
    (chatB (Store.set Store.empty "s1" [⟨"user", "old"⟩])
        { message := "hi", sessionId := "s1", selectedRole := none, ttsEnabled := false }
        (Except.error "boom") (fun _ => Except.error "no voice") "production").2 =
      Store.set Store.empty "s1" [⟨"user", "old"⟩] ∧
    (chatC (Store.set Store.empty "s1" [⟨"user", "old"⟩])
        { message := "hi", sessionId := "s1", selectedRole := none, ttsEnabled := false }
        (Except.error "boom") (fun _ => Except.error "no voice")).2 =
      Store.set Store.empty "s1" [⟨"user", "old"⟩] ∧
    (chatC (Store.set Store.empty "s1" [⟨"user", "old"⟩])
        { message := "hi", sessionId := "s1", selectedRole := none, ttsEnabled := false }
        (Except.ok "Objection!") (fun _ => Except.error "no voice")).2 =
      Store.set (Store.set Store.empty "s1" [⟨"user", "old"⟩]) "s1"
        (lastN 10 (Store.read (Store.set Store.empty "s1" [⟨"user", "old"⟩]) "s1" ++
          [⟨"user", "hi"⟩,
           ⟨"assistant", botResponseC
             (Store.read (Store.set Store.empty "s1" [⟨"user", "old"⟩]) "s1")
             (resolveRoleBC none) "Objection!"⟩])) := by
  have h := c10_history_on_failure (Store.set Store.empty "s1" [⟨"user", "old"⟩])
    { message := "hi", sessionId := "s1", selectedRole := none, ttsEnabled := false }
    false "boom" (fun _ => none) (fun _ => Except.error "no voice")
    (fun _ => Except.error "no voice") "production"
  exact ⟨h.1, h.2.1, h.2.2.1, h.2.2.2 (by decide) "Objection!"⟩

/-- C4 (amended): in the two `server.js` `/chat` variants, a completion
failure whose message contains `rate limit exceeded` is answered 429 with
`retryAfter = 60`, and any other completion failure is answered 500 with
internal detail attached only when `NODE_ENV` is `development`; variant C
(`src/unnamed/part_001`, also cited by the claim) has no rate-limit
branch and answers every completion failure with a generic 500. No
variant retries: each handler consumes exactly one completion outcome per
request. -/
theorem c4_error_mapping :
    ∀ (st : Store) (req : ChatRequest) (vp : Bool) (e : String)
      (spA : String → Option String) (spB spC : String → Except String String)
      (venv : String),
      req.message ≠ "" →
      (containsSub e "rate limit exceeded" = true →
        (chatA st req vp (Except.error e) spA venv).1.status = 429 ∧
        (chatA st req vp (Except.error e) spA venv).1.retryAfter = some 60 ∧
        (chatB st req (Except.error e) spB venv).1.status = 429 ∧
        (chatB st req (Except.error e) spB venv).1.retryAfter = some 60) ∧
      (containsSub e "rate limit exceeded" = false →
        (chatA st req vp (Except.error e) spA venv).1.status = 500 ∧
        (chatA st req vp (Except.error e) spA venv).1.details =
          (if venv = "development" then some e else none) ∧
        (chatB st req (Except.error e) spB venv).1.status = 500 ∧
        (chatB st req (Except.error e) spB venv).1.details =
          (if venv = "development" then some e else none)) ∧
      ((chatC st req (Except.error e) spC).1.status = 500 ∧
       (chatC st req (Except.error e) spC).1.retryAfter = none ∧
       (chatC st req (Except.error e) spC).1.details = none) := by
  intro st req vp e spA spB spC venv hm
  refine ⟨?_, ?_, ?_⟩
  · intro hr
    rw [chatA, if_neg hm, chatB, if_neg hm]
    simp only [hr, if_true]
    refine ⟨?_, ?_, ?_, ?_⟩ <;> first | rfl | trivial
  · intro hr
    rw [chatA, if_neg hm, chatB, if_neg hm]
    simp only [hr, Bool.false_eq_true, if_false]
    refine ⟨?_, ?_, ?_, ?_⟩ <;> first | rfl | trivial
  · rw [chatC, if_neg hm]
    exact ⟨rfl, rfl, rfl⟩

set_option maxRecDepth 8192 in
/-- C4 witness: the mapping at a concrete rate-limit error message. -/
theorem c4_error_mapping_witness :
    (containsSub "Request failed: rate limit exceeded" "rate limit exceeded" = true →
      (chatA Store.empty { message := "hi", sessionId := "s1", selectedRole := none, ttsEnabled := false }
          false (Except.error "Request failed: rate limit exceeded") (fun _ => none) "production").1.status = 429 ∧
      (chatA Store.empty { message := "hi", sessionId := "s1", selectedRole := none, ttsEnabled := false }
          false (Except.error "Request failed: rate limit exceeded") (fun _ => none) "production").1.retryAfter = some 60 ∧
      (chatB Store.empty { message := "hi", sessionId := "s1", selectedRole := none, ttsEnabled := false }
          (Except.error "Request failed: rate limit exceeded") (fun _ => Except.error "no voice") "production").1.status = 429 ∧
      (chatB Store.empty { message := "hi", sessionId := "s1", selectedRole := none, ttsEnabled := false }
          (Except.error "Request failed: rate limit exceeded") (fun _ => Except.error "no voice") "production").1.retryAfter = some 60) ∧
    (containsSub "Request failed: rate limit exceeded" "rate limit exceeded" = false →
      (chatA Store.empty { message := "hi", sessionId := "s1", selectedRole := none, ttsEnabled := false }
          false (Except.error "Request failed: rate limit exceeded") (fun _ => none) "production").1.status = 500 ∧
      (chatA Store.empty { message := "hi", sessionId := "s1", selectedRole := none, ttsEnabled := false }
          false (Except.error "Request failed: rate limit exceeded") (fun _ => none) "production").1.details =
        (if "production" = "development" then some "Request failed: rate limit exceeded" else none) ∧
      (chatB Store.empty { message := "hi", sessionId := "s1", selectedRole := none, ttsEnabled := false }
          (Except.error "Request failed: rate limit exceeded") (fun _ => Except.error "no voice") "production").1.status = 500 ∧
      (chatB Store.empty { message := "hi", sessionId := "s1", selectedRole := none, ttsEnabled := false }
          (Except.error "Request failed: rate limit exceeded") (fun _ => Except.error "no voice") "production").1.details =
        (if "production" = "development" then some "Request failed: rate limit exceeded" else none)) ∧
    ((chatC Store.empty { message := "hi", sessionId := "s1", selectedRole := none, ttsEnabled := false }
        (Except.error "Request failed: rate limit exceeded") (fun _ => Except.error "no voice")).1.status = 500 ∧
     (chatC Store.empty { message := "hi", sessionId := "s1", selectedRole := none, ttsEnabled := false }
        (Except.error "Request failed: rate limit exceeded") (fun _ => Except.error "no voice")).1.retryAfter = none ∧
     (chatC Store.empty { message := "hi", sessionId := "s1", selectedRole := none, ttsEnabled := false }
        (Except.error "Request failed: rate limit exceeded") (fun _ => Except.error "no voice")).1.details = none) :=
  c4_error_mapping Store.empty
    { message := "hi", sessionId := "s1", selectedRole := none, ttsEnabled := false }
    false "Request failed: rate limit exceeded" (fun _ => none)
    (fun _ => Except.error "no voice") (fun _ => Except.error "no voice") "production"
    (by decide)

set_option maxRecDepth 8192 in
/-- C4 counterexample: variant C answers 500 even when the completion
failure signals rate-limit exhaustion — the claim's "status 429 with a
suggested retry interval" does not hold for that cited `/chat` handler. -/
theorem c4_counterexample :
    containsSub "Request failed: rate limit exceeded" "rate limit exceeded" = true ∧
    (chatC Store.empty { message := "hi", sessionId := "s1", selectedRole := none, ttsEnabled := false }
        (Except.error "Request failed: rate limit exceeded")
        (fun _ => Except.error "no voice")).1.status = 500 ∧
    (chatC Store.empty { message := "hi", sessionId := "s1", selectedRole := none, ttsEnabled := false }
        (Except.error "Request failed: rate limit exceeded")
        (fun _ => Except.error "no voice")).1.retryAfter = none := by
  refine ⟨by decide, by decide, by decide⟩

/-- C5 (amended): in variant C's `/chat` (the only `/chat` that cleans),
every successful call returns exactly the post-processed reply — the raw
reply (with the first-turn introduction, when applicable) with every `*`
of the two emphasis passes stripped — stores that same cleaned text as
the new assistant turn, and the returned text contains no `*`; the two
`server.js` `/chat` variants return and store the raw reply unchanged
(see the counterexample). -/
theorem c5_clean_reply (st : Store) (req : ChatRequest) (raw : String)
    (speech : String → Except String String) (hm : req.message ≠ "") :
    (chatC st req (Except.ok raw) speech).1.text =
      some (botResponseC (Store.read st req.sessionId) (resolveRoleBC req.selectedRole) raw) ∧
    '*' ∉ (botResponseC (Store.read st req.sessionId)
      (resolveRoleBC req.selectedRole) raw).data ∧
    (botResponseC (Store.read st req.sessionId) (resolveRoleBC req.selectedRole) raw).data =
      (if (Store.read st req.sessionId).isEmpty
          && !(containsSub raw (resolveRoleBC req.selectedRole).name) then
        introTemplate (resolveRoleBC req.selectedRole).name ++ raw
       else raw).data.filter (fun c => c != '*') ∧
    (chatC st req (Except.ok raw) speech).2 =
      Store.set st req.sessionId (lastN 10 (Store.read st req.sessionId ++
        [⟨"user", req.message⟩,
         ⟨"assistant", botResponseC (Store.read st req.sessionId)
           (resolveRoleBC req.selectedRole) raw⟩])) := by
  refine ⟨?_, star_not_mem_cleanMarkdown _, ?_, ?_⟩
  · rw [chatC, if_neg hm]
  · rw [botResponseC, cleanMarkdown_data]
  · rw [chatC, if_neg hm]

/-- C5 witness: the cleaning at a concrete starred reply on a session
with prior history. -/
theorem c5_clean_reply_witness :
    (chatC (Store.set Store.empty "s1" [⟨"user", "old"⟩])
        { message := "hi", sessionId := "s1", selectedRole := none, ttsEnabled := false }
        (Except.ok "**Better** call *Saul*!") (fun _ => Except.error "no voice")).1.text =
      some (botResponseC (Store.read (Store.set Store.empty "s1" [⟨"user", "old"⟩]) "s1")
        (resolveRoleBC none) "**Better** call *Saul*!") ∧
    '*' ∉ (botResponseC (Store.read (Store.set Store.empty "s1" [⟨"user", "old"⟩]) "s1")
      (resolveRoleBC none) "**Better** call *Saul*!").data ∧
    (botResponseC (Store.read (Store.set Store.empty "s1" [⟨"user", "old"⟩]) "s1")
      (resolveRoleBC none) "**Better** call *Saul*!").data =
      (if (Store.read (Store.set Store.empty "s1" [⟨"user", "old"⟩]) "s1").isEmpty
          && !(containsSub "**Better** call *Saul*!" (resolveRoleBC none).name) then
        introTemplate (resolveRoleBC none).name ++ "**Better** call *Saul*!"
       else "**Better** call *Saul*!").data.filter (fun c => c != '*') ∧
    (chatC (Store.set Store.empty "s1" [⟨"user", "old"⟩])
        { message := "hi", sessionId := "s1", selectedRole := none, ttsEnabled := false }
        (Except.ok "**Better** call *Saul*!") (fun _ => Except.error "no voice")).2 =
      Store.set (Store.set Store.empty "s1" [⟨"user", "old"⟩]) "s1"
        (lastN 10 (Store.read (Store.set Store.empty "s1" [⟨"user", "old"⟩]) "s1" ++
          [⟨"user", "hi"⟩,
           ⟨"assistant", botResponseC
             (Store.read (Store.set Store.empty "s1" [⟨"user", "old"⟩]) "s1")
             (resolveRoleBC none) "**Better** call *Saul*!"⟩])) :=
  c5_clean_reply (Store.set Store.empty "s1" [⟨"user", "old"⟩])
    { message := "hi", sessionId := "s1", selectedRole := none, ttsEnabled := false }
    "**Better** call *Saul*!" (fun _ => Except.error "no voice") (by decide)

/-- C5 counterexample: variant A's `/chat` (cited by the claim) returns
the raw reply with its `**` and `*` markers intact — the cleaning the
claim states for every successful `sendMessage` does not happen there. -/
theorem c5_counterexample :
    (chatA Store.empty
        { message := "hi", sessionId := "s1", selectedRole := none, ttsEnabled := false }
        false (Except.ok (some "**Hello** there")) (fun _ => none) "production").1.text =
      some "**Hello** there" ∧
    '*' ∈ "**Hello** there".data := by
  refine ⟨by decide, by decide⟩

theorem starFree_append (a b : List Char) (ha : starFree a) (hb : starFree b) :
    starFree (a ++ b) := by
  rw [starFree, List.filter_append, ha, hb]

/-- Every possible resolved persona name of variants B/C is free of `*`. -/
theorem resolveRoleBC_name_starFree (sel : Option String) :
    starFree (resolveRoleBC sel).name.data := by
  cases sel with
  | none => decide
  | some k =>
      show starFree (if k = "" then fallbackBC
        else (presetPromptsBC k).getD fallbackBC).name.data
      rw [presetPromptsBC]
      split_ifs <;> decide

theorem introTemplate_starFree (sel : Option String) :
    starFree (introTemplate (resolveRoleBC sel).name).data := by
  rw [introTemplate, String.data_append, String.data_append]
  refine starFree_append _ _ (starFree_append _ _ (by decide)
    (resolveRoleBC_name_starFree sel)) (by decide)

/-- C6 (amended): in variant C's `/chat` (the only variant with the
first-turn special case), on a call whose stored history is empty and
whose raw reply does not contain the resolved persona's display name, the
returned text is exactly the fixed self-introduction template followed by
the cleaned raw reply; on later turns, or when the raw reply already
mentions the display name, the returned text is just the cleaned raw
reply with no prefix. The `server.js` `/chat` variants never add the
prefix (see the counterexample). -/
theorem c6_first_turn_intro (st : Store) (req : ChatRequest) (raw : String)
    (speech : String → Except String String) (hm : req.message ≠ "") :
    (Store.read st req.sessionId = [] →
      containsSub raw (resolveRoleBC req.selectedRole).name = false →
      ∃ t, (chatC st req (Except.ok raw) speech).1.text = some t ∧
        t.data = (introTemplate (resolveRoleBC req.selectedRole).name).data ++
          (cleanMarkdown raw).data) ∧
    ((Store.read st req.sessionId ≠ [] ∨
        containsSub raw (resolveRoleBC req.selectedRole).name = true) →
      (chatC st req (Except.ok raw) speech).1.text = some (cleanMarkdown raw)) := by
  have htext : (chatC st req (Except.ok raw) speech).1.text =
      some (botResponseC (Store.read st req.sessionId)
        (resolveRoleBC req.selectedRole) raw) := by
    rw [chatC, if_neg hm]
  constructor
  · intro hemp hname
    refine ⟨botResponseC (Store.read st req.sessionId)
      (resolveRoleBC req.selectedRole) raw, htext, ?_⟩
    rw [botResponseC, hemp, hname]
    show (cleanMarkdown (introTemplate (resolveRoleBC req.selectedRole).name ++ raw)).data = _
    rw [cleanMarkdown_append]
    have := cleanMarkdown_of_starFree _ (introTemplate_starFree req.selectedRole)
    rw [this]
  · intro hcase
    rw [htext, botResponseC]
    rcases hcase with hne | hname
    · have : (Store.read st req.sessionId).isEmpty = false := by
        cases h : Store.read st req.sessionId with
        | nil => exact absurd h hne
        | cons a l => rfl
      rw [this]
      rfl
    · rw [hname]
      cases (Store.read st req.sessionId).isEmpty <;> rfl

set_option maxRecDepth 8192 in
/-- C6 witness: a concrete first turn without the persona name gets the
prefix; the same reply on a session with prior history does not. -/
theorem c6_first_turn_intro_witness :
    (∃ t, (chatC Store.empty
        { message := "hi", sessionId := "s1", selectedRole := some "doctor", ttsEnabled := false }
        (Except.ok "Nice to meet you.") (fun _ => Except.error "no voice")).1.text = some t ∧
      t.data = (introTemplate (resolveRoleBC (some "doctor")).name).data ++
        (cleanMarkdown "Nice to meet you.").data) ∧
    (chatC (Store.set Store.empty "s1" [⟨"user", "old"⟩])
        { message := "hi", sessionId := "s1", selectedRole := some "doctor", ttsEnabled := false }
        (Except.ok "Nice to meet you.") (fun _ => Except.error "no voice")).1.text =
      some (cleanMarkdown "Nice to meet you.") :=
  ⟨(c6_first_turn_intro Store.empty
      { message := "hi", sessionId := "s1", selectedRole := some "doctor", ttsEnabled := false }
      "Nice to meet you." (fun _ => Except.error "no voice") (by decide)).1
      (by decide) (by decide),
   (c6_first_turn_intro (Store.set Store.empty "s1" [⟨"user", "old"⟩])
      { message := "hi", sessionId := "s1", selectedRole := some "doctor", ttsEnabled := false }
      "Nice to meet you." (fun _ => Except.error "no voice") (by decide)).2
      (Or.inl (by decide))⟩

set_option maxRecDepth 8192 in
/-- C6 counterexample: variant A's `/chat` (cited by the claim), on a
first turn whose reply does not mention the resolved persona's display
name, returns the reply with no self-introduction prefix. -/
theorem c6_counterexample :
    Store.read Store.empty "s1" = [] ∧
    containsSub "The court is in session." (resolveRoleA none).name = false ∧
    (chatA Store.empty
        { message := "hi", sessionId := "s1", selectedRole := none, ttsEnabled := false }
        false (Except.ok (some "The court is in session.")) (fun _ => none)
        "production").1.text = some "The court is in session." ∧
    ¬ (introTemplate (resolveRoleA none).name).data <+: "The court is in session.".data := by
  refine ⟨rfl, by decide, by decide, by decide⟩

/-- C7: a `/chat` call whose `selectedRole` is absent, empty, or not a key
of the persona registry is not rejected: variant A falls back to the
registry lawyer persona (`presetPrompts['lawyer']`, Saul Goodman), and
variants B/C fall back to their inline default object, whose system
prompt is letter-for-letter the registry lawyer (Saul Goodman) prompt;
in each case a successful completion is answered 200 as usual. -/
theorem c7_role_fallback :
    ∀ (k : String) (st : Store) (req : ChatRequest) (vp : Bool)
      (content : Option String) (raw : String) (spA : String → Option String)
      (spC : String → Except String String) (venv : String),
      resolveRoleA none = lawyerA ∧
      (presetPromptsA k = none → resolveRoleA (some k) = lawyerA) ∧
      presetPromptsA "lawyer" = some lawyerA ∧
      resolveRoleBC none = fallbackBC ∧
      (presetPromptsBC k = none → resolveRoleBC (some k) = fallbackBC) ∧
      fallbackBC.system = lawyerBC.system ∧
      (req.message ≠ "" →
        (chatA st req vp (Except.ok content) spA venv).1.status = 200) ∧
      (req.message ≠ "" →
        (chatC st req (Except.ok raw) spC).1.status = 200) := by
  intro k st req vp content raw spA spC venv
  refine ⟨rfl, ?_, rfl, rfl, ?_, rfl, ?_, ?_⟩
  · intro h
    show (if k = "" then lawyerA else (presetPromptsA k).getD lawyerA) = lawyerA
    by_cases hk : k = ""
    · rw [if_pos hk]
    · rw [if_neg hk, h]
      rfl
  · intro h
    show (if k = "" then fallbackBC else (presetPromptsBC k).getD fallbackBC) = fallbackBC
    by_cases hk : k = ""
    · rw [if_pos hk]
    · rw [if_neg hk, h]
      rfl
  · intro hm
    rw [chatA, if_neg hm]
  · intro hm
    rw [chatC, if_neg hm]

set_option maxRecDepth 8192 in
/-- C7 witness: the fallback at the unknown role key `chef` and a
concrete processed message. -/
theorem c7_role_fallback_witness :
    resolveRoleA (some "chef") = lawyerA ∧
    resolveRoleBC (some "chef") = fallbackBC ∧
    fallbackBC.system = lawyerBC.system ∧
    (chatA Store.empty
        { message := "hi", sessionId := "s1", selectedRole := some "chef", ttsEnabled := false }
        false (Except.ok (some "Better call Saul!")) (fun _ => none)
        "production").1.status = 200 ∧
    (chatC Store.empty
        { message := "hi", sessionId := "s1", selectedRole := some "chef", ttsEnabled := false }
        (Except.ok "Better call Saul!") (fun _ => Except.error "no voice")).1.status = 200 := by
  have h := c7_role_fallback "chef" Store.empty
    { message := "hi", sessionId := "s1", selectedRole := some "chef", ttsEnabled := false }
    false (some "Better call Saul!") "Better call Saul!" (fun _ => none)
    (fun _ => Except.error "no voice") "production"
  exact ⟨h.2.1 (by decide), h.2.2.2.2.1 (by decide), h.2.2.2.2.2.1,
    h.2.2.2.2.2.2.1 (by decide), h.2.2.2.2.2.2.2 (by decide)⟩

/-- A concrete 120-word reply text (120 copies of `ha`). -/
def words120 : String := "ha ha ha ha ha ha ha ha ha ha ha ha ha ha ha ha ha ha ha ha ha ha ha ha ha ha ha ha ha ha ha ha ha ha ha ha ha ha ha ha ha ha ha ha ha ha ha ha ha ha ha ha ha ha ha ha ha ha ha ha ha ha ha ha ha ha ha ha ha ha ha ha ha ha ha ha ha ha ha ha ha ha ha ha ha ha ha ha ha ha ha ha ha ha ha ha ha ha ha ha ha ha ha ha ha ha ha ha ha ha ha ha ha ha ha ha ha ha ha ha"

/-- C3 (amended): in variant C's `/chat` with `ttsEnabled`, a cleaned
reply of exactly 120 space-separated words is chunked into consecutive
50-, 50- and 20-word chunks, one speech-synthesis call is issued per
chunk (3 calls), and when they all succeed the response's audio sequence
has exactly 3 entries in the original chunk order. The `server.js`
variants (also cited by the claim) synthesize the whole reply in a single
call (see the counterexample). -/
theorem c3_chunking (st : Store) (msg sid : String) (sel : Option String)
    (raw : String) (g : String → String) (hm : msg ≠ "")
    (h120 : (splitWords (botResponseC (Store.read st sid)
      (resolveRoleBC sel) raw)).length = 120) :
    (buildChunks (splitWords (botResponseC (Store.read st sid)
      (resolveRoleBC sel) raw))).map List.length = [50, 50, 20] ∧
    ttsCallsC true (botResponseC (Store.read st sid) (resolveRoleBC sel) raw) =
      chunkTexts (splitWords (botResponseC (Store.read st sid) (resolveRoleBC sel) raw)) ∧
    (chunkTexts (splitWords (botResponseC (Store.read st sid)
      (resolveRoleBC sel) raw))).length = 3 ∧
    (chatC st { message := msg, sessionId := sid, selectedRole := sel, ttsEnabled := true }
        (Except.ok raw) (fun c => Except.ok (g c))).1.audioChunks =
      (chunkTexts (splitWords (botResponseC (Store.read st sid)
        (resolveRoleBC sel) raw))).map g ∧
    ((chatC st { message := msg, sessionId := sid, selectedRole := sel, ttsEnabled := true }
        (Except.ok raw) (fun c => Except.ok (g c))).1.audioChunks).length = 3 := by
  have h1 := buildChunks_120 _ h120
  have h2 := chunkTexts_120_length _ h120
  have h3 : (chatC st { message := msg, sessionId := sid, selectedRole := sel, ttsEnabled := true }
      (Except.ok raw) (fun c => Except.ok (g c))).1.audioChunks =
      (chunkTexts (splitWords (botResponseC (Store.read st sid)
        (resolveRoleBC sel) raw))).map g := by
    rw [chatC, if_neg hm]
    dsimp only
    rw [mapM_ok]
    rfl
  exact ⟨h1, rfl, h2, h3, by rw [h3, List.length_map]; exact h2⟩

set_option maxRecDepth 100000 in
/-- C3 witness: the chunking at the concrete 120-word reply on a session
with prior history (so no introduction prefix changes the word count). -/
theorem c3_chunking_witness :
    (buildChunks (splitWords (botResponseC
      (Store.read (Store.set Store.empty "s1" [⟨"user", "x"⟩]) "s1")
      (resolveRoleBC (some "doctor")) words120))).map List.length = [50, 50, 20] ∧
    ttsCallsC true (botResponseC (Store.read (Store.set Store.empty "s1" [⟨"user", "x"⟩]) "s1")
        (resolveRoleBC (some "doctor")) words120) =
      chunkTexts (splitWords (botResponseC
        (Store.read (Store.set Store.empty "s1" [⟨"user", "x"⟩]) "s1")
        (resolveRoleBC (some "doctor")) words120)) ∧
    (chunkTexts (splitWords (botResponseC
      (Store.read (Store.set Store.empty "s1" [⟨"user", "x"⟩]) "s1")
      (resolveRoleBC (some "doctor")) words120))).length = 3 ∧
    (chatC (Store.set Store.empty "s1" [⟨"user", "x"⟩])
        { message := "hi", sessionId := "s1", selectedRole := some "doctor", ttsEnabled := true }
        (Except.ok words120) (fun c => Except.ok ((fun _ => "AUDIO") c))).1.audioChunks =
      (chunkTexts (splitWords (botResponseC
        (Store.read (Store.set Store.empty "s1" [⟨"user", "x"⟩]) "s1")
        (resolveRoleBC (some "doctor")) words120))).map (fun _ => "AUDIO") ∧
    ((chatC (Store.set Store.empty "s1" [⟨"user", "x"⟩])
        { message := "hi", sessionId := "s1", selectedRole := some "doctor", ttsEnabled := true }
        (Except.ok words120) (fun c => Except.ok ((fun _ => "AUDIO") c))).1.audioChunks).length = 3 :=
  c3_chunking (Store.set Store.empty "s1" [⟨"user", "x"⟩]) "hi" "s1" (some "doctor")
    words120 (fun _ => "AUDIO") (by decide) (by decide)

set_option maxRecDepth 100000 in
/-- C3 counterexample: variant A's `/chat` (cited by the claim) with
`ttsEnabled` and a voice id issues a single speech-synthesis call on the
whole 120-word reply, and its response carries that single audio value
rather than a 3-entry sequence. -/
theorem c3_counterexample :
    (splitWords words120).length = 120 ∧
    cleanMarkdown words120 = words120 ∧
    (ttsCallsA true true words120).length = 1 ∧
    (chatA Store.empty
        { message := "hi", sessionId := "s1", selectedRole := none, ttsEnabled := true }
        true (Except.ok (some words120)) (fun _ => some "AUDIO") "production").1.audioUrl =
      some "AUDIO" ∧
    (chatA Store.empty
        { message := "hi", sessionId := "s1", selectedRole := none, ttsEnabled := true }
        true (Except.ok (some words120)) (fun _ => some "AUDIO") "production").1.audioChunks = [] := by
  refine ⟨by decide, by decide, by decide, by decide, by decide⟩
